import Mathlib

/-!
Verification of the X.509 certificate-verification parameter wrapper
(`src/openssl/src/x509/verify.rs` of rust-openssl).

The Rust file is a safe binding over the native `X509_VERIFY_PARAM` object.
The wrapper functions below are shallow embeddings of the Rust source; the
native object and its operations are not under `src/`, so they are modelled
from the specification (marked `Modelled from the spec:` in their doc
comments).  Machine strings and buffers are lists of byte values (`Nat`),
flag words are `Nat` with explicit bitwise operations.
-/

namespace Verify

/-- Modelled from the spec: the error stack reader is an external
collaborator; an error value is opaque, carried here as a code. -/
structure ErrorStack where
  code : Nat
deriving DecidableEq, Repr

/-- Modelled from the spec: the conceptual fields of the native
`X509_VERIFY_PARAM` object (spec section 3): matching-policy bits,
chain-validation bits, optional expected host (bytes), optional expected IP
(bytes), optional time, depth, auth level and purpose. -/
structure X509VerifyParam where
  check_flags : Nat
  verify_flags : Nat
  expected_host : Option (List Nat)
  expected_ip : Option (List Nat)
  verification_time : Option Int
  max_depth : Option Int
  auth_level : Option Int
  purpose : Option Int
deriving DecidableEq, Repr

/-- Modelled from the spec: process-wide library state, tracking whether the
one-time global initialization has run. -/
structure LibState where
  inited : Bool
deriving DecidableEq, Repr

/-- Modelled from the spec: `ffi::init()` performs the one-time library
initialization; idempotent and safe under repeated calls. -/
def ffi.init (_l : LibState) : LibState := ⟨true⟩

/-- Modelled from the spec: a fresh, empty parameter set — every field at its
unset/default value. -/
def emptyParam : X509VerifyParam :=
  { check_flags := 0, verify_flags := 0, expected_host := none,
    expected_ip := none, verification_time := none, max_depth := none,
    auth_level := none, purpose := none }

/-- Modelled from the spec: the native allocator either yields a fresh empty
parameter set or reports failure (a null pointer, here `none`). -/
def ffi.X509_VERIFY_PARAM_new (allocOk : Bool) : Option X509VerifyParam :=
  if allocOk then some emptyParam else none

/-- Modelled from the spec: `cvt_p` maps a possibly-null pointer to an
explicit result — an error exactly when the pointer is null. -/
def cvt_p {α : Type} (r : Option α) (errs : ErrorStack) : Except ErrorStack α :=
  match r with
  | none => Except.error errs
  | some p => Except.ok p

/-- Modelled from the spec: `cvt` maps a native integer return code to an
explicit result — an error exactly when the code is nonpositive. -/
def cvt (r : Int) (errs : ErrorStack) : Except ErrorStack Int :=
  if r ≤ 0 then Except.error errs else Except.ok r

/-- Modelled from the spec: the native set-flags call unions the given bits
into the current verification flags and reports success (1). -/
def ffi.X509_VERIFY_PARAM_set_flags (p : X509VerifyParam) (flags : Nat) :
    X509VerifyParam × Int :=
  ({ p with verify_flags := p.verify_flags ||| flags }, 1)

/-- Modelled from the spec: the native clear-flags call subtracts exactly the
given bits from the current verification flags and reports success (1). -/
def ffi.X509_VERIFY_PARAM_clear_flags (p : X509VerifyParam) (flags : Nat) :
    X509VerifyParam × Int :=
  ({ p with verify_flags := Nat.ldiff p.verify_flags flags }, 1)

/-- Modelled from the spec: the native get-flags call reads the current
verification flags and leaves the object unchanged. -/
def ffi.X509_VERIFY_PARAM_get_flags (p : X509VerifyParam) :
    Nat × X509VerifyParam :=
  (p.verify_flags, p)

/-- Modelled from the spec: the native set-hostflags call replaces the
matching-policy bits wholesale. -/
def ffi.X509_VERIFY_PARAM_set_hostflags (p : X509VerifyParam) (flags : Nat) :
    X509VerifyParam :=
  { p with check_flags := flags }

/-- Modelled from the spec: C `strlen` on a byte buffer — the length of the
longest prefix before the first NUL byte. -/
def cstrlen (buf : List Nat) : Nat := (buf.takeWhile (fun b => b ≠ 0)).length

/-- Modelled from the spec: the native set-host call. A zero length means
"compute the length via NUL termination"; a (possibly computed) length of
zero clears the hostname constraint; otherwise the first `len` bytes of the
buffer become the expected host.  Reports success (1). -/
def ffi.X509_VERIFY_PARAM_set1_host (p : X509VerifyParam) (buf : List Nat)
    (len : Nat) : X509VerifyParam × Int :=
  let effLen := if len = 0 then cstrlen buf else len
  (if effLen = 0 then { p with expected_host := none }
   else { p with expected_host := some (buf.take effLen) }, 1)

/-- Modelled from the spec: the native set-ip call copies exactly `len` bytes
from the buffer into the expected-IP constraint.  Reports success (1). -/
def ffi.X509_VERIFY_PARAM_set1_ip (p : X509VerifyParam) (buf : List Nat)
    (len : Nat) : X509VerifyParam × Int :=
  ({ p with expected_ip := some (buf.take len) }, 1)

/-- Modelled from the spec: the wrapped library's Suite-B flag constants live
in the sys crate (not under `src/`); the values follow the underlying
library's authoritative header. -/
def ffi.X509_V_FLAG_SUITEB_128_LOS_ONLY : Nat := 0x10000

/-- Modelled from the spec: see `ffi.X509_V_FLAG_SUITEB_128_LOS_ONLY`. -/
def ffi.X509_V_FLAG_SUITEB_192_LOS : Nat := 0x20000

/-- Modelled from the spec: see `ffi.X509_V_FLAG_SUITEB_128_LOS_ONLY`. -/
def ffi.X509_V_FLAG_SUITEB_128_LOS : Nat := 0x30000

/-- Modelled from the spec: the no-wildcards host-check bit of the wrapped
library's header (sys crate, not under `src/`). -/
def ffi.X509_CHECK_FLAG_NO_WILDCARDS : Nat := 0x2

/-- `X509CheckFlags` from the source: a bit set over the host-check flag
word. -/
structure X509CheckFlags where
  bits : Nat
deriving DecidableEq, Repr

/-- Source: `const NO_WILDCARDS = ffi::X509_CHECK_FLAG_NO_WILDCARDS;`. -/
def X509CheckFlags.NO_WILDCARDS : X509CheckFlags :=
  ⟨ffi.X509_CHECK_FLAG_NO_WILDCARDS⟩

/-- Source: the deprecated alias
`const FLAG_NO_WILDCARDS = ffi::X509_CHECK_FLAG_NO_WILDCARDS;`. -/
def X509CheckFlags.FLAG_NO_WILDCARDS : X509CheckFlags :=
  ⟨ffi.X509_CHECK_FLAG_NO_WILDCARDS⟩

/-- `X509VerifyFlags` from the source: a bit set over the verify flag
word. -/
structure X509VerifyFlags where
  bits : Nat
deriving DecidableEq, Repr

/-- Source: `const SUITEB_128_LOS_ONLY = ffi::X509_V_FLAG_SUITEB_128_LOS_ONLY;`. -/
def X509VerifyFlags.SUITEB_128_LOS_ONLY : X509VerifyFlags :=
  ⟨ffi.X509_V_FLAG_SUITEB_128_LOS_ONLY⟩

/-- Source: `const SUITEB_192_LOS = ffi::X509_V_FLAG_SUITEB_128_LOS;`
(deliberately not the name-symmetric constant). -/
def X509VerifyFlags.SUITEB_192_LOS : X509VerifyFlags :=
  ⟨ffi.X509_V_FLAG_SUITEB_128_LOS⟩

/-- Source: `const SUITEB_128_LOS = ffi::X509_V_FLAG_SUITEB_192_LOS;`
(deliberately not the name-symmetric constant). -/
def X509VerifyFlags.SUITEB_128_LOS : X509VerifyFlags :=
  ⟨ffi.X509_V_FLAG_SUITEB_192_LOS⟩

/-- `X509VerifyParam::new` from the source: runs `ffi::init()` first, then
`cvt_p(ffi::X509_VERIFY_PARAM_new())`.  The allocation outcome and the
pending error stack stand for the native environment. -/
def X509VerifyParam.new (l : LibState) (allocOk : Bool) (errs : ErrorStack) :
    LibState × Except ErrorStack X509VerifyParam :=
  let lInit := ffi.init l
  (lInit, cvt_p (ffi.X509_VERIFY_PARAM_new allocOk) errs)

/-- `set_hostflags` from the source: forwards `hostflags.bits` to
`ffi::X509_VERIFY_PARAM_set_hostflags`; returns no error value. -/
def X509VerifyParam.set_hostflags (p : X509VerifyParam)
    (hostflags : X509CheckFlags) : X509VerifyParam :=
  ffi.X509_VERIFY_PARAM_set_hostflags p hostflags.bits

/-- `set_flags` from the source:
`cvt(ffi::X509_VERIFY_PARAM_set_flags(ptr, flags.bits)).map(|_| ())`. -/
def X509VerifyParam.set_flags (p : X509VerifyParam) (flags : X509VerifyFlags)
    (errs : ErrorStack) : X509VerifyParam × Except ErrorStack Unit :=
  let r := ffi.X509_VERIFY_PARAM_set_flags p flags.bits
  (r.1, (cvt r.2 errs).map (fun _ => ()))

/-- `clear_flags` from the source:
`cvt(ffi::X509_VERIFY_PARAM_clear_flags(ptr, flags.bits)).map(|_| ())`. -/
def X509VerifyParam.clear_flags (p : X509VerifyParam) (flags : X509VerifyFlags)
    (errs : ErrorStack) : X509VerifyParam × Except ErrorStack Unit :=
  let r := ffi.X509_VERIFY_PARAM_clear_flags p flags.bits
  (r.1, (cvt r.2 errs).map (fun _ => ()))

/-- `flags` from the source: reads the bits via
`ffi::X509_VERIFY_PARAM_get_flags` and wraps them in `X509VerifyFlags`. -/
def X509VerifyParam.flags (p : X509VerifyParam) :
    X509VerifyFlags × X509VerifyParam :=
  let r := ffi.X509_VERIFY_PARAM_get_flags p
  (⟨r.1⟩, r.2)

/-- The ffi arguments `set_host` forwards, from the source:
`let raw_host = if host.is_empty() { "\0" } else { host };` then the call
passes `raw_host`'s bytes and `host.len()`.  The literal `"\0"` is the
one-byte string holding a single NUL byte. -/
def set_host_args (host : List Nat) : List Nat × Nat :=
  (if host.isEmpty then [0] else host, host.length)

/-- `set_host` from the source: forwards `set_host_args host` to
`ffi::X509_VERIFY_PARAM_set1_host` and converts the return code. -/
def X509VerifyParam.set_host (p : X509VerifyParam) (host : List Nat)
    (errs : ErrorStack) : X509VerifyParam × Except ErrorStack Unit :=
  let a := set_host_args host
  let r := ffi.X509_VERIFY_PARAM_set1_host p a.1 a.2
  (r.1, (cvt r.2 errs).map (fun _ => ()))

/-- `IpAddr` of the Rust standard library, reduced to what `set_ip` reads:
the octet list of a v4 (4 bytes) or v6 (16 bytes) address. -/
inductive IpAddr where
  | V4 (octets : List Nat)
  | V6 (octets : List Nat)
deriving DecidableEq, Repr

/-- The ffi arguments `set_ip` forwards, from the source: a 16-byte buffer
`buf = [0; 16]` whose head receives the address octets
(`copy_from_slice`, which the Rust array types keep length-correct), and the
length 4 or 16. -/
def set_ip_args : IpAddr → List Nat × Nat
  | IpAddr.V4 o => (o ++ List.replicate 12 0, 4)
  | IpAddr.V6 o => (o, 16)

/-- `set_ip` from the source: forwards `set_ip_args ip` to
`ffi::X509_VERIFY_PARAM_set1_ip` and converts the return code. -/
def X509VerifyParam.set_ip (p : X509VerifyParam) (ip : IpAddr)
    (errs : ErrorStack) : X509VerifyParam × Except ErrorStack Unit :=
  let a := set_ip_args ip
  let r := ffi.X509_VERIFY_PARAM_set1_ip p a.1 a.2
  (r.1, (cvt r.2 errs).map (fun _ => ()))

/-! ## Helper lemmas -/

/-- Bits removed by `Nat.ldiff` are gone: `(x \ f) ∩ f = 0`. -/
theorem ldiff_land_self (x f : Nat) : Nat.ldiff x f &&& f = 0 := by
  apply Nat.eq_of_testBit_eq
  intro i
  simp [Nat.testBit_land, Nat.testBit_ldiff]

/-- The native set-host call never touches the expected IP, whatever the
buffer and length. -/
theorem set1_host_expected_ip (p : X509VerifyParam) (buf : List Nat)
    (len : Nat) :
    (ffi.X509_VERIFY_PARAM_set1_host p buf len).1.expected_ip =
      p.expected_ip := by
  unfold ffi.X509_VERIFY_PARAM_set1_host
  by_cases h : (if len = 0 then cstrlen buf else len) = 0 <;> simp [h]

/-! ## Claims -/

/-- C3: the Suite-B security-level constants take the wrapped library's
values for the flags they denote — the cross-named assignment of the
source, not the name-symmetric one (the two underlying values differ, so
name symmetry would change both constants). -/
theorem suiteb_constants_cross_assigned_not_name_symmetric :
    X509VerifyFlags.SUITEB_192_LOS.bits = ffi.X509_V_FLAG_SUITEB_128_LOS ∧
    X509VerifyFlags.SUITEB_128_LOS.bits = ffi.X509_V_FLAG_SUITEB_192_LOS ∧
    ffi.X509_V_FLAG_SUITEB_128_LOS ≠ ffi.X509_V_FLAG_SUITEB_192_LOS ∧
    X509VerifyFlags.SUITEB_128_LOS.bits ≠ ffi.X509_V_FLAG_SUITEB_128_LOS ∧
    X509VerifyFlags.SUITEB_192_LOS.bits ≠ ffi.X509_V_FLAG_SUITEB_192_LOS := by
  refine ⟨rfl, rfl, ?_, ?_, ?_⟩ <;> decide

/-- C1: `set_host` transmits the empty string as an explicit clear signal —
a buffer of one NUL byte with length 0 — and the engine clears the
constraint; every non-empty host is forwarded with its exact bytes and
length, and stored unchanged. -/
theorem set_host_empty_clears_nonempty_forwards_exact
    (p : X509VerifyParam) (host : List Nat) (errs : ErrorStack) :
    (host = [] →
      set_host_args host = ([0], 0) ∧
      (X509VerifyParam.set_host p host errs).1.expected_host = none) ∧
    (host ≠ [] →
      set_host_args host = (host, host.length) ∧
      (X509VerifyParam.set_host p host errs).1.expected_host = some host) := by
  constructor
  · rintro rfl
    constructor
    · simp [set_host_args]
    · simp [X509VerifyParam.set_host, set_host_args,
        ffi.X509_VERIFY_PARAM_set1_host, cstrlen]
  · intro hne
    have hlen : host.length ≠ 0 := fun h0 => hne (List.length_eq_zero.mp h0)
    constructor
    · simp [set_host_args, List.isEmpty_iff, hne]
    · simp [X509VerifyParam.set_host, set_host_args, List.isEmpty_iff, hne,
        ffi.X509_VERIFY_PARAM_set1_host, hlen]

/-- Witness for C1 at the empty host and at the two-byte host `"hi"`. -/
theorem set_host_empty_clears_nonempty_forwards_exact_witness :
    (set_host_args [] = ([0], 0) ∧
      (X509VerifyParam.set_host emptyParam [] ⟨0⟩).1.expected_host = none) ∧
    (set_host_args [104, 105] = ([104, 105], 2) ∧
      (X509VerifyParam.set_host emptyParam [104, 105] ⟨0⟩).1.expected_host =
        some [104, 105]) :=
  ⟨(set_host_empty_clears_nonempty_forwards_exact emptyParam [] ⟨0⟩).1 rfl,
   (set_host_empty_clears_nonempty_forwards_exact emptyParam [104, 105] ⟨0⟩).2
     (by decide)⟩

/-- C2: `set_ip` forwards exactly 4 transmitted bytes for a v4 address and
exactly 16 for a v6 address — the engine receives and stores the octets
themselves, with no padding leaking across families. -/
theorem set_ip_forwards_exact_octets
    (p : X509VerifyParam) (o : List Nat) (errs : ErrorStack) :
    (o.length = 4 →
      (set_ip_args (IpAddr.V4 o)).2 = 4 ∧
      (set_ip_args (IpAddr.V4 o)).1.take (set_ip_args (IpAddr.V4 o)).2 = o ∧
      (X509VerifyParam.set_ip p (IpAddr.V4 o) errs).1.expected_ip = some o) ∧
    (o.length = 16 →
      (set_ip_args (IpAddr.V6 o)).2 = 16 ∧
      (set_ip_args (IpAddr.V6 o)).1.take (set_ip_args (IpAddr.V6 o)).2 = o ∧
      (X509VerifyParam.set_ip p (IpAddr.V6 o) errs).1.expected_ip = some o) := by
  constructor
  · intro h4
    have htake : (o ++ List.replicate 12 0).take 4 = o := by
      rw [← h4]
      simp
    have hstore : (X509VerifyParam.set_ip p (IpAddr.V4 o) errs).1.expected_ip =
        some ((o ++ List.replicate 12 0).take 4) := rfl
    exact ⟨rfl, htake, by rw [hstore, htake]⟩
  · intro h16
    have htake : o.take 16 = o := List.take_of_length_le (le_of_eq h16)
    have hstore : (X509VerifyParam.set_ip p (IpAddr.V6 o) errs).1.expected_ip =
        some (o.take 16) := rfl
    exact ⟨rfl, htake, by rw [hstore, htake]⟩

/-- Witness for C2 at the v4 address 127.0.0.1 and the v6 loopback. -/
theorem set_ip_forwards_exact_octets_witness :
    ((set_ip_args (IpAddr.V4 [127, 0, 0, 1])).2 = 4 ∧
      (set_ip_args (IpAddr.V4 [127, 0, 0, 1])).1.take
        (set_ip_args (IpAddr.V4 [127, 0, 0, 1])).2 = [127, 0, 0, 1] ∧
      (X509VerifyParam.set_ip emptyParam (IpAddr.V4 [127, 0, 0, 1])
        ⟨0⟩).1.expected_ip = some [127, 0, 0, 1]) ∧
    ((set_ip_args (IpAddr.V6
        [0, 0, 0, 0, 0, 0, 0, 0, 0, 0, 0, 0, 0, 0, 0, 1])).2 = 16 ∧
      (set_ip_args (IpAddr.V6
        [0, 0, 0, 0, 0, 0, 0, 0, 0, 0, 0, 0, 0, 0, 0, 1])).1.take
        (set_ip_args (IpAddr.V6
          [0, 0, 0, 0, 0, 0, 0, 0, 0, 0, 0, 0, 0, 0, 0, 1])).2 =
        [0, 0, 0, 0, 0, 0, 0, 0, 0, 0, 0, 0, 0, 0, 0, 1] ∧
      (X509VerifyParam.set_ip emptyParam (IpAddr.V6
        [0, 0, 0, 0, 0, 0, 0, 0, 0, 0, 0, 0, 0, 0, 0, 1])
        ⟨0⟩).1.expected_ip =
        some [0, 0, 0, 0, 0, 0, 0, 0, 0, 0, 0, 0, 0, 0, 0, 1]) :=
  ⟨(set_ip_forwards_exact_octets emptyParam [127, 0, 0, 1] ⟨0⟩).1 rfl,
   (set_ip_forwards_exact_octets emptyParam
     [0, 0, 0, 0, 0, 0, 0, 0, 0, 0, 0, 0, 0, 0, 0, 1] ⟨0⟩).2 rfl⟩

/-- C4: from any starting state, `set_flags F` then `clear_flags F` then
`flags()` yields a flag word containing no bit of `F`. -/
theorem set_then_clear_excludes_flags
    (p : X509VerifyParam) (F : X509VerifyFlags) (e1 e2 : ErrorStack) :
    ((X509VerifyParam.clear_flags
        (X509VerifyParam.set_flags p F e1).1 F e2).1.flags).1.bits
      &&& F.bits = 0 := by
  simp only [X509VerifyParam.set_flags, X509VerifyParam.clear_flags,
    X509VerifyParam.flags, ffi.X509_VERIFY_PARAM_set_flags,
    ffi.X509_VERIFY_PARAM_clear_flags, ffi.X509_VERIFY_PARAM_get_flags]
  exact ldiff_land_self _ _

/-- C5: for disjoint flag sets `A` and `B`, `set_flags A` then
`clear_flags B` keeps every bit of `A` set and keeps every previously set
bit outside `B`. -/
theorem set_disjoint_clear_preserves
    (p : X509VerifyParam) (A B : X509VerifyFlags) (e1 e2 : ErrorStack)
    (hdisj : A.bits &&& B.bits = 0) :
    (((X509VerifyParam.clear_flags
        (X509VerifyParam.set_flags p A e1).1 B e2).1.flags).1.bits
      &&& A.bits = A.bits) ∧
    (∀ i, p.verify_flags.testBit i = true → B.bits.testBit i = false →
      (((X509VerifyParam.clear_flags
          (X509VerifyParam.set_flags p A e1).1 B e2).1.flags).1.bits).testBit
        i = true) := by
  simp only [X509VerifyParam.set_flags, X509VerifyParam.clear_flags,
    X509VerifyParam.flags, ffi.X509_VERIFY_PARAM_set_flags,
    ffi.X509_VERIFY_PARAM_clear_flags, ffi.X509_VERIFY_PARAM_get_flags]
  constructor
  · apply Nat.eq_of_testBit_eq
    intro i
    have hAB : (A.bits &&& B.bits).testBit i = false := by
      rw [hdisj]; exact Nat.zero_testBit i
    rw [Nat.testBit_land] at hAB
    simp only [Nat.testBit_land, Nat.testBit_ldiff, Nat.testBit_lor]
    cases hA : A.bits.testBit i <;> cases hB : B.bits.testBit i <;>
      simp_all
  · intro i hp hB
    simp [Nat.testBit_ldiff, Nat.testBit_lor, hp, hB]

/-- Witness for C5: disjoint sets A = 0x4 and B = 0x8 over a state with
flags 0x18 already set; A stays set and the prior bit 0x10 survives. -/
theorem set_disjoint_clear_preserves_witness :
    ((4 : Nat) &&& (8 : Nat) = 0) ∧
    ((((X509VerifyParam.clear_flags
        (X509VerifyParam.set_flags { emptyParam with verify_flags := 0x18 }
          ⟨4⟩ ⟨0⟩).1 ⟨8⟩ ⟨0⟩).1.flags).1.bits &&& (4 : Nat) = 4) ∧
     (((X509VerifyParam.clear_flags
        (X509VerifyParam.set_flags { emptyParam with verify_flags := 0x18 }
          ⟨4⟩ ⟨0⟩).1 ⟨8⟩ ⟨0⟩).1.flags).1.bits).testBit 4 = true) :=
  ⟨by decide,
   ⟨(set_disjoint_clear_preserves { emptyParam with verify_flags := 0x18 }
       ⟨4⟩ ⟨8⟩ ⟨0⟩ ⟨0⟩ (by decide)).1,
    (set_disjoint_clear_preserves { emptyParam with verify_flags := 0x18 }
       ⟨4⟩ ⟨8⟩ ⟨0⟩ ⟨0⟩ (by decide)).2 4 (by decide) (by decide)⟩⟩

/-- C6: the host and IP constraints are independent — `set_host` never
touches the expected IP and `set_ip` never touches the expected host. -/
theorem set_host_set_ip_independent
    (p : X509VerifyParam) (host : List Nat) (ip : IpAddr)
    (e1 e2 : ErrorStack) :
    (X509VerifyParam.set_host p host e1).1.expected_ip = p.expected_ip ∧
    (X509VerifyParam.set_ip p ip e2).1.expected_host = p.expected_host := by
  constructor
  · exact set1_host_expected_ip p (set_host_args host).1 (set_host_args host).2
  · cases ip <;> rfl

/-- C7: `new` always runs the idempotent global initialization first, and
returns the fresh empty parameter set exactly when allocation succeeds, an
explicit error exactly when the allocator reports null. -/
theorem new_runs_init_and_errors_iff_alloc_fails
    (l : LibState) (allocOk : Bool) (errs : ErrorStack) :
    (X509VerifyParam.new l allocOk errs).1 = ffi.init l ∧
    (ffi.init l).inited = true ∧
    ffi.init (ffi.init l) = ffi.init l ∧
    ((X509VerifyParam.new l allocOk errs).2 = Except.ok emptyParam ↔
      allocOk = true) ∧
    ((X509VerifyParam.new l allocOk errs).2 = Except.error errs ↔
      allocOk = false) := by
  refine ⟨rfl, rfl, rfl, ?_, ?_⟩ <;>
    cases allocOk <;>
      simp [X509VerifyParam.new, ffi.X509_VERIFY_PARAM_new, cvt_p]

/-- C8: `set_hostflags` replaces the matching-policy bits wholesale —
the result is the given bit set regardless of the previous value (so no
union with it) — and, being a total function into the state with no error
component, it has no failure path; all other fields are untouched. -/
theorem set_hostflags_replaces_wholesale
    (p : X509VerifyParam) (f : X509CheckFlags) :
    (X509VerifyParam.set_hostflags p f).check_flags = f.bits ∧
    (X509VerifyParam.set_hostflags p f).verify_flags = p.verify_flags ∧
    (X509VerifyParam.set_hostflags p f).expected_host = p.expected_host ∧
    (X509VerifyParam.set_hostflags p f).expected_ip = p.expected_ip :=
  ⟨rfl, rfl, rfl, rfl⟩

/-- C10: the `flags` getter returns the current verification flag bits and
leaves every field of the parameter set unchanged. -/
theorem flags_getter_read_only (p : X509VerifyParam) :
    (X509VerifyParam.flags p).1.bits = p.verify_flags ∧
    (X509VerifyParam.flags p).2.check_flags = p.check_flags ∧
    (X509VerifyParam.flags p).2.verify_flags = p.verify_flags ∧
    (X509VerifyParam.flags p).2.expected_host = p.expected_host ∧
    (X509VerifyParam.flags p).2.expected_ip = p.expected_ip ∧
    (X509VerifyParam.flags p).2.verification_time = p.verification_time ∧
    (X509VerifyParam.flags p).2.max_depth = p.max_depth ∧
    (X509VerifyParam.flags p).2.auth_level = p.auth_level ∧
    (X509VerifyParam.flags p).2.purpose = p.purpose :=
  ⟨rfl, rfl, rfl, rfl, rfl, rfl, rfl, rfl, rfl⟩

/-- C9: the deprecated host-check alias `FLAG_NO_WILDCARDS` and its
replacement `NO_WILDCARDS` are bit-identical. -/
theorem deprecated_no_wildcards_alias_bit_identical :
    X509CheckFlags.FLAG_NO_WILDCARDS = X509CheckFlags.NO_WILDCARDS ∧
    X509CheckFlags.FLAG_NO_WILDCARDS.bits = X509CheckFlags.NO_WILDCARDS.bits :=
  ⟨rfl, rfl⟩

end Verify
